import Mathlib

/-!
# Verification of the Simplicity event-carrying task execution core

Shallow embedding of `src/simplicity/common/event.py` (Context, Event
hierarchy, `EventDeps.event_send`, the consumption driver `EventDeps.run`),
of the producer wrappers in `src/simplicity/_pydantic_ai_adapter/agent_utils.py`
(`prod_run`, `prod_run_stream`, `agent_run`), and of the fan-out aggregation
in `src/simplicity/engines/pardo/engine.py` (`PardoEngine.summary_qa`) and
`src/simplicity/engines/villv.py` (`VillVEngine.normal_query`).

Python's `uuid4().int` identifiers are modelled as `Nat` values supplied
explicitly, with freshness expressed as hypotheses where it matters.
The driver's asynchronous generator is modelled as a pure function over the
list of events the scripted producer placed on the channel, together with the
producer's final outcome (`Except` models a raised exception).
-/

namespace Simplicity

/-- Model of `Context` from `event.py`: `trace_id`, `span_id` (both `uuid4().int` in the
source, modelled as `Nat`), and an optional `parent_id`. -/
structure Context where
  trace_id : Nat
  span_id : Nat
  parent_id : Option Nat
deriving DecidableEq, Repr

/-- Model of `Context.spawn` from `event.py` lines 31-36: same `trace_id`, a fresh
`span_id` (the `uuid4().int` is the explicit argument `fresh`), and
`parent_id` set to the spawning context's `span_id`. -/
def Context.spawn (c : Context) (fresh : Nat) : Context :=
  { trace_id := c.trace_id, span_id := fresh, parent_id := some c.span_id }

/-- Model of the task-event union from `event.py`: `EventTaskStart` (named
`EventTaskRoot` in the stale copy `agent_utils.py`), `EventTaskOutput`,
`EventTaskOutputStream`, `EventTaskOutputStreamDelta`.  Every constructor
carries the base-class field `ctx : Context | None`.  `task_args` (a free-form
payload the driver never inspects) is kept as a `String`; the other payloads
are a type parameter `α`. -/
inductive Event (α : Type) where
  | taskStart (ctx : Option Context) (task_desc : String) (task_args : String)
  | taskOutput (ctx : Option Context) (is_result : Bool) (task_output : α)
  | taskOutputStream (ctx : Option Context) (is_result : Bool)
  | taskOutputStreamDelta (ctx : Option Context) (task_output_delta : α) (stopped : Bool)
deriving DecidableEq, Repr

namespace Event

variable {α : Type}

/-- The `ctx` field shared by all event classes. -/
def ctx : Event α → Option Context
  | .taskStart c _ _ => c
  | .taskOutput c _ _ => c
  | .taskOutputStream c _ => c
  | .taskOutputStreamDelta c _ _ => c

/-- Assignment `event.ctx = ...` (the only mutation `event_send` performs). -/
def setCtx : Event α → Option Context → Event α
  | .taskStart _ d a, c => .taskStart c d a
  | .taskOutput _ r o, c => .taskOutput c r o
  | .taskOutputStream _ r, c => .taskOutputStream c r
  | .taskOutputStreamDelta _ d s, c => .taskOutputStreamDelta c d s

/-- The test on line 182 of `event.py`:
`isinstance(event, EventTaskOutputStreamDelta) and event.ctx.parent_id == stream_span.span_id`. -/
def isDeltaOfSpan : Event α → Nat → Bool
  | .taskOutputStreamDelta (some cx) _ _, span => cx.parent_id == some span
  | _, _ => false

/-- The `stopped` flag of a delta event (`false` for all other events). -/
def deltaStopped : Event α → Bool
  | .taskOutputStreamDelta _ _ st => st
  | _ => false

end Event

/-- Model of `EventDeps.event_send` from `event.py` lines 149-151:
`event.ctx = event.ctx or self._event_parent.spawn()` followed by a send.
`parent` is the handle's `_event_parent`; `fresh` is the `uuid4().int` the
spawn would draw (consumed only when the caller left `ctx` unset). -/
def event_send {α : Type} (parent : Context) (fresh : Nat) (e : Event α) : Event α :=
  e.setCtx (some (match e.ctx with
    | some c => c
    | none => parent.spawn fresh))

/-- Outcome of one iteration of the listen loop in `EventDeps.run` for the
event at the head of the channel: the Bool is the tag the event is yielded
with; `cont` carries the value of `stream_span` after the iteration, `brk`
means the loop executed `break` right after the yield. -/
inductive StepRes where
  | cont (is_result : Bool) (stream_span : Option Context)
  | brk (is_result : Bool)
deriving DecidableEq, Repr

/-- One iteration of the listen loop of `EventDeps.run` (`event.py` lines
181-200).  `none` models the `AttributeError` Python would raise when
dereferencing `event.ctx.parent_id` on an event whose `ctx` is `None`
(the dereference happens on every path, at line 182 or at line 188). -/
def step {α : Type} (self_span : Nat) (ss : Option Context) (e : Event α) :
    Option StepRes :=
  match e.ctx with
  | none => none
  | some cx =>
    some (match ss with
      | some c =>
        -- line 182: matching delta of the remembered stream span
        if e.isDeltaOfSpan c.span_id then
          if e.deltaStopped then .brk true else .cont true (some c)
        -- line 188: foreign event
        else if cx.parent_id ≠ some self_span then .cont false (some c)
        -- `stream_span` is set, so the `if stream_span is None` block is
        -- skipped and control falls through to line 200: `yield event, False`
        else .cont false (some c)
      | none =>
        -- line 188: foreign event
        if cx.parent_id ≠ some self_span then .cont false none
        else match e with
          -- line 193: result stream announcement
          | .taskOutputStream _ true => .cont true (some cx)
          -- line 197: atomic result
          | .taskOutput _ true _ => .brk true
          -- line 200: any other direct child
          | _ => .cont false none)

/-- How the listen loop of `EventDeps.run` left the channel: `broke` (the loop
executed `break`, with the events it never read), `drained` (the scripted
events are exhausted and the loop is still awaiting the channel, with the
current `stream_span`), or `crashed` (`AttributeError` on a `ctx`-less
event, with the unprocessed remainder). -/
inductive LoopExit (α : Type) where
  | broke (leftover : List (Event α))
  | drained (stream_span : Option Context)
  | crashed (leftover : List (Event α))
deriving DecidableEq, Repr

/-- The listen loop of `EventDeps.run` (`event.py` lines 181-200) over the
list of events the producer placed on the channel, in channel (FIFO) order:
returns the `(event, bool)` pairs yielded, and how the loop exited. -/
def runLoop {α : Type} (self_span : Nat) (ss : Option Context) :
    List (Event α) → List (Event α × Bool) × LoopExit α
  | [] => ([], .drained ss)
  | e :: rest =>
    match step self_span ss e with
    | none => ([], .crashed (e :: rest))
    | some (.brk b) => ([(e, b)], .broke rest)
    | some (.cont b ss') =>
      let r := runLoop self_span ss' rest
      ((e, b) :: r.1, r.2)

/-- An item yielded by the asynchronous generator `EventDeps.run`: either a
tagged event or the terminal `EndResult` (`event.py` lines 137-139, 202). -/
inductive RunItem (α ρ : Type) where
  | ev (e : Event α) (is_result : Bool)
  | endResult (res : ρ)
deriving DecidableEq, Repr

/-- Overall behaviour of one call of `EventDeps.run`: the generator yields
`items` and then either finishes (`yields`), re-raises the exception the
target operation raised (`raises`, via the `except*` block on lines 204-206),
blocks forever awaiting the channel (`hangs`), or dies on the
`AttributeError` of a `ctx`-less event (`crashes`). -/
inductive DriverOutcome (α ρ ε : Type) where
  | yields (items : List (RunItem α ρ))
  | raises (items : List (RunItem α ρ)) (exc : ε)
  | hangs (items : List (RunItem α ρ))
  | crashes (items : List (RunItem α ρ))
deriving DecidableEq, Repr

/-- Model of `EventDeps.run` from `event.py` lines 159-206 for a scripted producer:
`self_span` is the handle's `_event_parent.span_id`, `sent` the events the
target operation placed on the channel (in order), `outcome` its return value
or raised exception.  The listen loop starts with `stream_span = None`; when
it breaks, the task group is joined and `EndResult(res=result)` is yielded
(line 202) unless the target raised, in which case the `except*` block
re-raises; when the script is exhausted without a break, the loop either
hangs on the channel (target returned) or is cancelled by the target's
exception, which the `except*` block re-raises. -/
def EventDeps.run {α ρ ε : Type} (self_span : Nat) (sent : List (Event α))
    (outcome : Except ε ρ) : DriverOutcome α ρ ε :=
  let r := runLoop self_span none sent
  let items := r.1.map fun p => RunItem.ev p.1 p.2
  match r.2 with
  | .crashed _ => .crashes items
  | .broke _ =>
    match outcome with
    | .ok res => .yields (items ++ [.endResult res])
    | .error exc => .raises items exc
  | .drained _ =>
    match outcome with
    | .ok _ => .hangs items
    | .error exc => .raises items exc

/-- One externally visible action of a producer wrapper from
`agent_utils.py`: a channel send (via `event_send`), the single `await run`
of `prod_run`, or consuming one text chunk of the stream in
`prod_run_stream`. -/
inductive ProdAction (α : Type) where
  | send (e : Event α)
  | awaitRun
  | consumeChunk (c : α)
deriving DecidableEq, Repr

/-- Model of `prod_run` from `agent_utils.py` lines 90-100, as its sequence of
externally visible actions: send `EventTaskRoot(ctx=deps._event_parent, ...)`
(a task-start event, see the class names in `event.py`), await the run, then
send `EventTaskOutput(task_output=result.output, is_result=True)` with `ctx`
unset, which `event_send` stamps with a fresh child span (`fresh_out`).
`output` is `result.output`. -/
def prod_run {α : Type} (parent : Context) (fresh_out : Nat) (output : α) :
    List (ProdAction α) :=
  [ .send (event_send parent fresh_out (.taskStart (some parent) "run_agent" "\x7b\x7d")),
    .awaitRun,
    .send (event_send parent fresh_out (.taskOutput none true output)) ]

/-- The `async for` body plus trailing send of `prod_run_stream`
(`agent_utils.py` lines 74-86): for each chunk, consume it from the stream
then send a delta on a fresh child span of `stream_span`
(`ctx=stream_span.spawn()`); after the stream ends, send the final delta with
`stopped=True`, also on a fresh child span of `stream_span`.  `fdelta i` is
the fresh `uuid4().int` drawn by the `i`-th `stream_span.spawn()`. -/
def streamDeltas (parent stream_span : Context) (fdelta : Nat → Nat) :
    Nat → List String → List (ProdAction String)
  | i, [] =>
    [.send (event_send parent 0
      (.taskOutputStreamDelta (some (stream_span.spawn (fdelta i))) "" true))]
  | i, c :: cs =>
    .consumeChunk c ::
    .send (event_send parent 0
      (.taskOutputStreamDelta (some (stream_span.spawn (fdelta i))) c false)) ::
    streamDeltas parent stream_span fdelta (i + 1) cs

/-- Model of `prod_run_stream` from `agent_utils.py` lines 61-87, as its sequence of
externally visible actions: send the task-start event
(`ctx=deps._event_parent`), spawn `stream_span` (fresh id `fstream`), send
`EventTaskOutputStream(ctx=stream_span, is_result=True)`, then consume the
stream chunk by chunk, sending one delta per chunk and a final stopped
delta (`streamDeltas`). -/
def prod_run_stream (parent : Context) (fstream : Nat) (fdelta : Nat → Nat)
    (chunks : List String) : List (ProdAction String) :=
  let stream_span := parent.spawn fstream
  .send (event_send parent 0 (.taskStart (some parent) "run_agent_stream" "\x7b\x7d")) ::
  .send (event_send parent 0 (.taskOutputStream (some stream_span) true)) ::
  streamDeltas parent stream_span fdelta 0 chunks

/-- The events a list of producer actions placed on the channel, in order. -/
def sentEvents {α : Type} (as : List (ProdAction α)) : List (Event α) :=
  as.filterMap fun a => match a with
    | .send e => some e
    | _ => none

/-- Model of `agent_run` from `agent_utils.py` lines 139-153, restricted to its effect
on the handle's `_event_being_consuming` flag: if the flag is already set the
call raises `RuntimeError("TaskEvent stream being consuming. Use run_stream
instead.")`; otherwise the flag is set to `True` and the call delegates to
the consumption driver (`default_run`, the same listen-loop logic as
`EventDeps.run`, here the parameter `body`).  No statement in `agent_run`
ever writes the flag again, so the returned flag value — the flag's state
after the generator has been fully consumed — is `true`. -/
def agent_run {α ρ ε : Type} (event_being_consuming : Bool)
    (body : DriverOutcome α ρ ε) :
    Except String (Bool × DriverOutcome α ρ ε) :=
  if event_being_consuming then
    .error "TaskEvent stream being consuming. Use run_stream instead."
  else
    .ok (true, body)

/-- Modelled from the spec: `stone_brick.asynclib.gather` (an external
dependency, not part of this repository) runs the branches concurrently and
returns, in input order, each branch's result or the exception it raised
(`Except.error`).  This is the contract the callers in
`pardo/engine.py` and `villv.py` rely on (`isinstance(x, Exception)`). -/
def gather {ε β : Type} (branches : List (Except ε β)) : List (Except ε β) :=
  branches

/-- The aggregation comprehension of `PardoEngine.summary_qa`
(`pardo/engine.py` lines 143-152): enumerate the gathered per-source
answers, drop the branches that raised, and prepend
`"published at <time>\n\n"` when the source at that index has a
`publishedTime` (`published idx`). -/
def summary_qa_aggregate {ε : Type} (published : Nat → Option String)
    (answers : List (Except ε String)) : List String :=
  (gather answers).enum.filterMap fun p =>
    match p.2 with
    | .error _ => none
    | .ok x =>
      some ((match published p.1 with
        | some t => "published at " ++ t ++ "\n\n"
        | none => "") ++ x)

/-- The aggregation of `VillVEngine.normal_query` (`villv.py` line 118):
`answers = [x for x in answers if not isinstance(x, Exception)]`. -/
def normal_query_aggregate {ε β : Type} (answers : List (Except ε β)) :
    List β :=
  (gather answers).filterMap fun x =>
    match x with
    | .error _ => none
    | .ok a => some a

/-- What `VillVEngine.normal_query` does right after the aggregation
(`villv.py` lines 118-122): return the single surviving answer, or hand the
surviving answers (possibly none) to `context_qa`. -/
inductive VillvCont (β : Type) where
  | returnSingle (a : β)
  | contextQA (answers : List β)
deriving DecidableEq, Repr

/-- The fan-out tail of `VillVEngine.normal_query` (`villv.py` lines
105-122): gather the branches, filter out the raised ones, then
`if len(answers) == 1: return answers[0]` else call
`context_qa(deps, ..., answers)`. -/
def normal_query_fanout {ε β : Type} (branches : List (Except ε β)) :
    VillvCont β :=
  match normal_query_aggregate branches with
  | [a] => .returnSingle a
  | answers => .contextQA answers

/-- A sequence of `Context.spawn` calls starting from a root context `r`,
newest context first: each step spawns from some already-derived context,
with a span id that is fresh (distinct from every span id derived so far —
the `uuid4().int` collision-freedom assumption). -/
inductive SpawnSeq : Context → List Context → Prop where
  | root (r : Context) : SpawnSeq r [r]
  | step {r : Context} {cs : List Context} (c : Context) (f : Nat) :
      SpawnSeq r cs → c ∈ cs → (∀ d ∈ cs, f ≠ d.span_id) →
      SpawnSeq r (c.spawn f :: cs)

/-- Test used to state C8: is the event a `TaskOutput` with `is_result=true`? -/
def isResultOutput {α : Type} : Event α → Bool
  | .taskOutput _ true _ => true
  | _ => false

/-- Test used to state C8: is the event a `TaskOutputStream`? -/
def isStreamEvent {α : Type} : Event α → Bool
  | .taskOutputStream _ _ => true
  | _ => false

/-- Test used to state C8: is the event a `TaskOutputStreamDelta`? -/
def isDeltaEvent {α : Type} : Event α → Bool
  | .taskOutputStreamDelta _ _ _ => true
  | _ => false

/-- Payload of a non-stopped delta event, used to state C8. -/
def runningDeltaPayload {α : Type} : Event α → Option α
  | .taskOutputStreamDelta _ d false => some d
  | _ => none

/-- Test used to state C9: did the branch succeed
(`not isinstance(x, Exception)` in the source)? -/
def isOkBranch {ε β : Type} : Except ε β → Bool
  | .ok _ => true
  | .error _ => false

/-! ## Helper lemmas -/

/-- Unfolding lemma: `sentEvents` of an empty action list. -/
@[simp] theorem sentEvents_nil {α : Type} :
    sentEvents ([] : List (ProdAction α)) = [] := rfl

/-- Unfolding lemma: `sentEvents` past a send action. -/
@[simp] theorem sentEvents_send_cons {α : Type} (e : Event α)
    (as : List (ProdAction α)) :
    sentEvents (ProdAction.send e :: as) = e :: sentEvents as := by
  simp [sentEvents]

/-- Unfolding lemma: `sentEvents` past the await action. -/
@[simp] theorem sentEvents_await_cons {α : Type} (as : List (ProdAction α)) :
    sentEvents (ProdAction.awaitRun :: as) = sentEvents as := by
  simp [sentEvents]

/-- Unfolding lemma: `sentEvents` past a chunk consumption. -/
@[simp] theorem sentEvents_consume_cons {α : Type} (c : α)
    (as : List (ProdAction α)) :
    sentEvents (ProdAction.consumeChunk c :: as) = sentEvents as := by
  simp [sentEvents]

/-- An `event_send` with a caller-provided context forwards a delta event
unchanged. -/
@[simp] theorem event_send_delta_some {α : Type} (p : Context) (f : Nat)
    (cx : Context) (d : α) (st : Bool) :
    event_send p f (Event.taskOutputStreamDelta (some cx) d st)
      = Event.taskOutputStreamDelta (some cx) d st := rfl

/-- The events `streamDeltas` sends, in closed form: one non-stopped delta
per chunk, at consecutive fresh indices, followed by the stopped delta. -/
theorem sentEvents_streamDeltas (p s : Context) (fd : Nat → Nat) :
    ∀ (cs : List String) (i : Nat),
      sentEvents (streamDeltas p s fd i cs)
        = (cs.enumFrom i).map
            (fun q => Event.taskOutputStreamDelta (some (s.spawn (fd q.1))) q.2 false)
          ++ [Event.taskOutputStreamDelta (some (s.spawn (fd (i + cs.length)))) "" true] := by
  intro cs
  induction cs with
  | nil => intro i; simp [streamDeltas]
  | cons ch cs ih =>
    intro i
    simp only [streamDeltas, sentEvents_consume_cons, sentEvents_send_cons,
      event_send_delta_some, ih (i + 1), List.enumFrom_cons, List.map_cons,
      List.length_cons, List.cons_append]
    have hidx : i + (cs.length + 1) = i + 1 + cs.length := by omega
    rw [hidx]

/-- An event whose `ctx` is `some cx` with `cx.parent_id ≠ some n` is not a
delta of the span `n`. -/
theorem isDeltaOfSpan_eq_false {α : Type} {e : Event α} {cx : Context} {n : Nat}
    (hctx : e.ctx = some cx) (h : cx.parent_id ≠ some n) :
    e.isDeltaOfSpan n = false := by
  cases e with
  | taskOutputStreamDelta octx d st =>
    simp [Event.ctx] at hctx
    subst hctx
    simpa [Event.isDeltaOfSpan] using h
  | taskStart octx d a => simp [Event.isDeltaOfSpan]
  | taskOutput octx r o => simp [Event.isDeltaOfSpan]
  | taskOutputStream octx r => simp [Event.isDeltaOfSpan]

/-- On an event with a concrete context, one loop iteration never crashes. -/
theorem step_isSome {α : Type} {e : Event α} {cx : Context}
    (hctx : e.ctx = some cx) (S : Nat) (ss : Option Context) :
    (step S ss e).isSome = true := by
  unfold step
  rw [hctx]
  simp

/-- Every event yielded by the listen loop came from the channel script. -/
theorem runLoop_yield_mem {α : Type} (S : Nat) :
    ∀ (evs : List (Event α)) (ss : Option Context),
      ∀ p ∈ (runLoop S ss evs).1, p.1 ∈ evs := by
  intro evs
  induction evs with
  | nil => intro ss p hp; simp [runLoop] at hp
  | cons e rest ih =>
    intro ss p hp
    unfold runLoop at hp
    cases hstep : step S ss e with
    | none => rw [hstep] at hp; simp at hp
    | some sr =>
      cases sr with
      | brk b =>
        rw [hstep] at hp
        simp at hp
        simp [hp]
      | cont b ss' =>
        rw [hstep] at hp
        simp at hp
        rcases hp with hp | hp
        · simp [hp]
        · exact List.mem_cons_of_mem _ (ih ss' p hp)

/-- When every scripted event carries a context, the listen loop never ends
in the `crashed` state. -/
theorem runLoop_not_crashed {α : Type} (S : Nat) :
    ∀ (evs : List (Event α)) (ss : Option Context),
      (∀ e ∈ evs, (Event.ctx e).isSome = true) →
      ∀ l, (runLoop S ss evs).2 ≠ LoopExit.crashed l := by
  intro evs
  induction evs with
  | nil => intro ss _ l; simp [runLoop]
  | cons e rest ih =>
    intro ss h l
    obtain ⟨cx, hcx⟩ := Option.isSome_iff_exists.mp (h e (by simp))
    unfold runLoop
    cases hstep : step S ss e with
    | none =>
      have := step_isSome hcx S ss
      rw [hstep] at this
      simp at this
    | some sr =>
      cases sr with
      | brk b => simp
      | cont b ss' =>
        simp only []
        exact ih ss' (fun x hx => h x (List.mem_cons_of_mem _ hx)) l

/-! ## The claims -/

/-- Claim C1 (confirmed).  Consumption driver atomic-result classification:
for a handle whose own span is `S`, if the channel delivers first a
`TaskOutput` event with `is_result=false` and `ctx` a child of `S`, then a
`TaskOutput` event with `is_result=true` and `ctx` a child of `S`, the listen
loop yields `(event1, false)` then `(event2, true)` and terminates (break)
after exactly these two forwarded events, for any remaining channel content;
and `EventDeps.run` on exactly this script finally yields `EndResult`
carrying the target operation's return value. -/
theorem C1_result_classification {α ρ ε : Type} (S : Nat) (c1 c2 : Context)
    (p1 p2 : α) (r : ρ) (rest : List (Event α))
    (h1 : c1.parent_id = some S) (h2 : c2.parent_id = some S) :
    runLoop S none
        (Event.taskOutput (some c1) false p1 :: Event.taskOutput (some c2) true p2 :: rest)
      = ([(Event.taskOutput (some c1) false p1, false),
          (Event.taskOutput (some c2) true p2, true)], LoopExit.broke rest)
    ∧ EventDeps.run S
        [Event.taskOutput (some c1) false p1, Event.taskOutput (some c2) true p2]
        (Except.ok r : Except ε ρ)
      = DriverOutcome.yields
          [RunItem.ev (Event.taskOutput (some c1) false p1) false,
           RunItem.ev (Event.taskOutput (some c2) true p2) true,
           RunItem.endResult r] := by
  constructor
  · simp [runLoop, step, Event.ctx, Event.isDeltaOfSpan, h1, h2]
  · simp [EventDeps.run, runLoop, step, Event.ctx, Event.isDeltaOfSpan, h1, h2]

/-- Witness for C1 at a concrete input. -/
theorem C1_result_classification_witness :
    runLoop 0 none
        [Event.taskOutput (some ⟨7, 1, some 0⟩) false (10 : Nat),
         Event.taskOutput (some ⟨7, 2, some 0⟩) true 20]
      = ([(Event.taskOutput (some ⟨7, 1, some 0⟩) false 10, false),
          (Event.taskOutput (some ⟨7, 2, some 0⟩) true 20, true)], LoopExit.broke [])
    ∧ EventDeps.run 0
        [Event.taskOutput (some ⟨7, 1, some 0⟩) false (10 : Nat),
         Event.taskOutput (some ⟨7, 2, some 0⟩) true 20]
        (Except.ok 99 : Except String Nat)
      = DriverOutcome.yields
          [RunItem.ev (Event.taskOutput (some ⟨7, 1, some 0⟩) false 10) false,
           RunItem.ev (Event.taskOutput (some ⟨7, 2, some 0⟩) true 20) true,
           RunItem.endResult 99] :=
  C1_result_classification 0 ⟨7, 1, some 0⟩ ⟨7, 2, some 0⟩ 10 20 99 [] rfl rfl

/-- Claim C2 (confirmed).  Consumption driver streaming termination: for a
handle whose own span is `S`, if the channel delivers a `TaskOutputStream`
event with `is_result=true` and `ctx` a child of `S`, followed by three
`TaskOutputStreamDelta` events whose `ctx.parent_id` equals that stream
span's `span_id` with `stopped = false, false, true`, then the listen loop
forwards exactly these 4 events all tagged `true` and breaks on the
`stopped=true` delta without reading any further channel item (`rest` is
left on the channel untouched); `EventDeps.run` on this script then yields
`EndResult`. -/
theorem C2_streaming_termination {α ρ ε : Type} (S : Nat) (c0 cd1 cd2 cd3 : Context)
    (p1 p2 p3 : α) (r : ρ) (rest : List (Event α))
    (h0 : c0.parent_id = some S)
    (hd1 : cd1.parent_id = some c0.span_id)
    (hd2 : cd2.parent_id = some c0.span_id)
    (hd3 : cd3.parent_id = some c0.span_id) :
    runLoop S none
        (Event.taskOutputStream (some c0) true ::
         Event.taskOutputStreamDelta (some cd1) p1 false ::
         Event.taskOutputStreamDelta (some cd2) p2 false ::
         Event.taskOutputStreamDelta (some cd3) p3 true :: rest)
      = ([(Event.taskOutputStream (some c0) true, true),
          (Event.taskOutputStreamDelta (some cd1) p1 false, true),
          (Event.taskOutputStreamDelta (some cd2) p2 false, true),
          (Event.taskOutputStreamDelta (some cd3) p3 true, true)], LoopExit.broke rest)
    ∧ EventDeps.run S
        [Event.taskOutputStream (some c0) true,
         Event.taskOutputStreamDelta (some cd1) p1 false,
         Event.taskOutputStreamDelta (some cd2) p2 false,
         Event.taskOutputStreamDelta (some cd3) p3 true]
        (Except.ok r : Except ε ρ)
      = DriverOutcome.yields
          [RunItem.ev (Event.taskOutputStream (some c0) true) true,
           RunItem.ev (Event.taskOutputStreamDelta (some cd1) p1 false) true,
           RunItem.ev (Event.taskOutputStreamDelta (some cd2) p2 false) true,
           RunItem.ev (Event.taskOutputStreamDelta (some cd3) p3 true) true,
           RunItem.endResult r] := by
  constructor
  · simp [runLoop, step, Event.ctx, Event.isDeltaOfSpan, Event.deltaStopped,
      h0, hd1, hd2, hd3]
  · simp [EventDeps.run, runLoop, step, Event.ctx, Event.isDeltaOfSpan,
      Event.deltaStopped, h0, hd1, hd2, hd3]

/-- Witness for C2 at a concrete input. -/
theorem C2_streaming_termination_witness :
    runLoop 0 none
        [Event.taskOutputStream (some ⟨7, 5, some 0⟩) true,
         Event.taskOutputStreamDelta (some ⟨7, 11, some 5⟩) (1 : Nat) false,
         Event.taskOutputStreamDelta (some ⟨7, 12, some 5⟩) 2 false,
         Event.taskOutputStreamDelta (some ⟨7, 13, some 5⟩) 3 true]
      = ([(Event.taskOutputStream (some ⟨7, 5, some 0⟩) true, true),
          (Event.taskOutputStreamDelta (some ⟨7, 11, some 5⟩) 1 false, true),
          (Event.taskOutputStreamDelta (some ⟨7, 12, some 5⟩) 2 false, true),
          (Event.taskOutputStreamDelta (some ⟨7, 13, some 5⟩) 3 true, true)],
         LoopExit.broke [])
    ∧ EventDeps.run 0
        [Event.taskOutputStream (some ⟨7, 5, some 0⟩) true,
         Event.taskOutputStreamDelta (some ⟨7, 11, some 5⟩) (1 : Nat) false,
         Event.taskOutputStreamDelta (some ⟨7, 12, some 5⟩) 2 false,
         Event.taskOutputStreamDelta (some ⟨7, 13, some 5⟩) 3 true]
        (Except.ok 99 : Except String Nat)
      = DriverOutcome.yields
          [RunItem.ev (Event.taskOutputStream (some ⟨7, 5, some 0⟩) true) true,
           RunItem.ev (Event.taskOutputStreamDelta (some ⟨7, 11, some 5⟩) 1 false) true,
           RunItem.ev (Event.taskOutputStreamDelta (some ⟨7, 12, some 5⟩) 2 false) true,
           RunItem.ev (Event.taskOutputStreamDelta (some ⟨7, 13, some 5⟩) 3 true) true,
           RunItem.endResult 99] :=
  C2_streaming_termination 0 ⟨7, 5, some 0⟩ ⟨7, 11, some 5⟩ ⟨7, 12, some 5⟩
    ⟨7, 13, some 5⟩ 1 2 3 99 [] rfl rfl rfl rfl

/-- Counterexample to claim C3.  With the handle's span `S = 0`, after a
result stream has started (`TaskOutputStream{is_result=true}` on the child
span `5` of `S`), a `TaskOutput` event with `is_result=true` whose
`ctx.parent_id` equals the handle's own `span_id` is forwarded as
`(event, false)` — not `(event, true)` — and the listen loop keeps
listening (`drained`, not `broke`): in the source, when `stream_span` is
set, the `if stream_span is None` block is skipped and control falls
through to `yield event, False`, contradicting the claim that such an event
is classified exactly as in the initial state. -/
theorem C3_counterexample :
    runLoop 0 none
        [Event.taskOutputStream (some ⟨7, 5, some 0⟩) true,
         Event.taskOutput (some ⟨7, 2, some 0⟩) true (42 : Nat)]
      = ([(Event.taskOutputStream (some ⟨7, 5, some 0⟩) true, true),
          (Event.taskOutput (some ⟨7, 2, some 0⟩) true 42, false)],
         LoopExit.drained (some ⟨7, 5, some 0⟩))
    ∧ (runLoop 0 none
        [Event.taskOutputStream (some ⟨7, 5, some 0⟩) true,
         Event.taskOutput (some ⟨7, 2, some 0⟩) true (42 : Nat)]).2
        ≠ LoopExit.broke [] := by
  exact ⟨by decide, by decide⟩

/-- Claim C3, amended (the code does less than the claim): once the listen
loop of `EventDeps.run` is in the `STREAMING_RESULT` state (`stream_span` is
set to `c`), any event that is not a delta of the remembered stream span is
forwarded as `(event, false)` and never terminates the listen loop, and the
state is unchanged; only the foreign check of the initial classification
still applies — in particular a `TaskOutput` event with `is_result=true`
whose `ctx.parent_id` equals the handle's own `span_id` is forwarded as
`(event, false)` and does not terminate the loop. -/
theorem C3_streaming_fallback {α : Type} (S : Nat) (c : Context) (e : Event α)
    (cx : Context) (hctx : e.ctx = some cx)
    (hnd : e.isDeltaOfSpan c.span_id = false) :
    step S (some c) e = some (StepRes.cont false (some c))
    ∧ ∀ rest : List (Event α),
        runLoop S (some c) (e :: rest)
          = ((e, false) :: (runLoop S (some c) rest).1,
             (runLoop S (some c) rest).2) := by
  have hstep : step S (some c) e = some (StepRes.cont false (some c)) := by
    unfold step
    rw [hctx]
    simp [hnd]
  refine ⟨hstep, fun rest => ?_⟩
  conv_lhs => rw [runLoop]
  rw [hstep]

/-- Witness for C3's amended statement:  after the stream on span `5` has
started, a direct-child `TaskOutput{is_result=true}` is forwarded tagged
`false` and the loop continues. -/
theorem C3_streaming_fallback_witness :
    step 0 (some ⟨7, 5, some 0⟩) (Event.taskOutput (some ⟨7, 2, some 0⟩) true (42 : Nat))
      = some (StepRes.cont false (some ⟨7, 5, some 0⟩))
    ∧ ∀ rest : List (Event Nat),
        runLoop 0 (some ⟨7, 5, some 0⟩)
            (Event.taskOutput (some ⟨7, 2, some 0⟩) true 42 :: rest)
          = ((Event.taskOutput (some ⟨7, 2, some 0⟩) true 42, false)
              :: (runLoop 0 (some ⟨7, 5, some 0⟩) rest).1,
             (runLoop 0 (some ⟨7, 5, some 0⟩) rest).2) :=
  C3_streaming_fallback 0 ⟨7, 5, some 0⟩
    (Event.taskOutput (some ⟨7, 2, some 0⟩) true 42) ⟨7, 2, some 0⟩ rfl (by decide)

/-- Claim C4 (confirmed).  Foreign-event passthrough: any event whose
`ctx.parent_id` equals neither the handle's own `span_id` nor (while
streaming) the stream span's `span_id` is forwarded tagged `false`,
regardless of its `is_result` flag or kind, it never causes the listen loop
to terminate (the iteration is a `cont`, never a `brk`), and it leaves the
`stream_span` state unchanged. -/
theorem C4_foreign_passthrough {α : Type} (S : Nat) (ss : Option Context)
    (e : Event α) (cx : Context) (hctx : e.ctx = some cx)
    (hforeign : cx.parent_id ≠ some S)
    (hstream : ∀ c : Context, ss = some c → cx.parent_id ≠ some c.span_id) :
    step S ss e = some (StepRes.cont false ss)
    ∧ ∀ rest : List (Event α),
        runLoop S ss (e :: rest)
          = ((e, false) :: (runLoop S ss rest).1, (runLoop S ss rest).2) := by
  have hstep : step S ss e = some (StepRes.cont false ss) := by
    unfold step
    rw [hctx]
    cases ss with
    | none => simp [hforeign]
    | some c =>
      have hnd : e.isDeltaOfSpan c.span_id = false :=
        isDeltaOfSpan_eq_false hctx (hstream c rfl)
      simp [hnd, hforeign]
  refine ⟨hstep, fun rest => ?_⟩
  conv_lhs => rw [runLoop]
  rw [hstep]

/-- Witness for C4: a foreign `TaskOutput{is_result=true}` (parent span
`1000`, handle span `0`, stream span `5`) is forwarded tagged `false` and
the loop continues. -/
theorem C4_foreign_passthrough_witness :
    step 0 (some ⟨7, 5, some 0⟩)
        (Event.taskOutput (some ⟨7, 99, some 1000⟩) true (3 : Nat))
      = some (StepRes.cont false (some ⟨7, 5, some 0⟩))
    ∧ ∀ rest : List (Event Nat),
        runLoop 0 (some ⟨7, 5, some 0⟩)
            (Event.taskOutput (some ⟨7, 99, some 1000⟩) true 3 :: rest)
          = ((Event.taskOutput (some ⟨7, 99, some 1000⟩) true 3, false)
              :: (runLoop 0 (some ⟨7, 5, some 0⟩) rest).1,
             (runLoop 0 (some ⟨7, 5, some 0⟩) rest).2) :=
  C4_foreign_passthrough 0 (some ⟨7, 5, some 0⟩)
    (Event.taskOutput (some ⟨7, 99, some 1000⟩) true 3) ⟨7, 99, some 1000⟩
    rfl (by decide) (by intro c hc; cases hc; decide)

/-- Claim C5 (confirmed).  Error propagation: if the target operation passed
to `EventDeps.run` raises `exc` (outcome `Except.error exc`), the lazy event
sequence raises that same exception to the driver's caller after the task
group unwinds (`DriverOutcome.raises _ exc`); no event is synthesized onto
the channel to represent the error (every tagged event the generator
yielded is one of the events the producer itself sent), no `EndResult` is
yielded, and the exception is never silently swallowed (the outcome is
`raises`, not `yields`/`hangs`).  The hypothesis that all scripted events
carry a context is the system invariant established by C10. -/
theorem C5_error_propagation {α ρ ε : Type} (S : Nat) (sent : List (Event α))
    (exc : ε) (hctx : ∀ e ∈ sent, (Event.ctx e).isSome = true) :
    EventDeps.run S sent (Except.error exc : Except ε ρ)
      = DriverOutcome.raises
          ((runLoop S none sent).1.map fun p => RunItem.ev p.1 p.2) exc
    ∧ (∀ p ∈ (runLoop S none sent).1, p.1 ∈ sent)
    ∧ ∀ res : ρ,
        RunItem.endResult res
          ∉ ((runLoop S none sent).1.map fun p => RunItem.ev p.1 p.2) := by
  refine ⟨?_, runLoop_yield_mem S sent none, ?_⟩
  · unfold EventDeps.run
    cases hexit : (runLoop S none sent).2 with
    | crashed l => exact absurd hexit (runLoop_not_crashed S sent none hctx l)
    | broke l => simp [hexit]
    | drained ss => simp [hexit]
  · intro res hres
    simp [List.mem_map] at hres

/-- Witness for C5: the scripted producer of C1 raises instead of
returning; the driver forwards the two events and then raises the same
exception, with no `EndResult`. -/
theorem C5_error_propagation_witness :
    EventDeps.run 0
        [Event.taskOutput (some ⟨7, 1, some 0⟩) false (10 : Nat),
         Event.taskOutput (some ⟨7, 2, some 0⟩) true 20]
        (Except.error "boom" : Except String Nat)
      = DriverOutcome.raises
          ((runLoop 0 none
              [Event.taskOutput (some ⟨7, 1, some 0⟩) false (10 : Nat),
               Event.taskOutput (some ⟨7, 2, some 0⟩) true 20]).1.map
            fun p => RunItem.ev p.1 p.2) "boom"
    ∧ (∀ p ∈ (runLoop 0 none
          [Event.taskOutput (some ⟨7, 1, some 0⟩) false (10 : Nat),
           Event.taskOutput (some ⟨7, 2, some 0⟩) true 20]).1,
        p.1 ∈ [Event.taskOutput (some ⟨7, 1, some 0⟩) false (10 : Nat),
               Event.taskOutput (some ⟨7, 2, some 0⟩) true 20])
    ∧ ∀ res : Nat,
        RunItem.endResult res
          ∉ ((runLoop 0 none
              [Event.taskOutput (some ⟨7, 1, some 0⟩) false (10 : Nat),
               Event.taskOutput (some ⟨7, 2, some 0⟩) true 20]).1.map
            fun p => RunItem.ev p.1 p.2) :=
  C5_error_propagation 0
    [Event.taskOutput (some ⟨7, 1, some 0⟩) false (10 : Nat),
     Event.taskOutput (some ⟨7, 2, some 0⟩) true 20] "boom" (by decide)

/-- Counterexample to claim C6.  The claim says the handle's
`_event_being_consuming` flag is "set for the duration of the call", i.e.
cleared when the consumption finishes.  In `agent_run` the flag is set to
`True` and never written again, so after a first consumption on a fresh
handle completes, the flag is still `true` (first conjunct: the returned
flag state is `true`, not `false`), and a second consumption started when no
consumption is active any more still fails with the re-entrancy error
(second conjunct). -/
theorem C6_counterexample :
    agent_run false
        (DriverOutcome.yields [] : DriverOutcome Nat Nat String)
      = Except.ok (true, DriverOutcome.yields [])
    ∧ agent_run true
        (DriverOutcome.yields [] : DriverOutcome Nat Nat String)
      = Except.error "TaskEvent stream being consuming. Use run_stream instead." :=
  ⟨rfl, rfl⟩

/-- Claim C6, amended: starting a consumption on a handle whose
`_event_being_consuming` flag is set fails immediately and synchronously
with the programming error `RuntimeError("TaskEvent stream being consuming.
Use run_stream instead.")` and is not retried; starting it with the flag
clear succeeds and sets the flag — but the flag is never cleared again, so
it remains set after the consumption completes (rather than being set only
for the duration of the call), and any later consumption on the same handle
also fails. -/
theorem C6_reentrancy_guard {α ρ ε : Type} (body : DriverOutcome α ρ ε) :
    agent_run true body
      = Except.error "TaskEvent stream being consuming. Use run_stream instead."
    ∧ agent_run false body = Except.ok (true, body) :=
  ⟨rfl, rfl⟩

/-! ### Claim C7: span derivation and the tree invariant -/

/-- All contexts derived by a spawn sequence share the root's `trace_id`. -/
theorem spawnSeq_trace {r : Context} {cs : List Context} (h : SpawnSeq r cs) :
    ∀ d ∈ cs, d.trace_id = r.trace_id := by
  induction h with
  | root => intro d hd; simp at hd; simp [hd]
  | step c f hseq hc hf ih =>
    intro d hd
    rcases List.mem_cons.mp hd with hd | hd
    · subst hd
      exact ih c hc
    · exact ih d hd

/-- The span ids derived by a spawn sequence are pairwise distinct. -/
theorem spawnSeq_nodup {r : Context} {cs : List Context} (h : SpawnSeq r cs) :
    (cs.map Context.span_id).Nodup := by
  induction h with
  | root => simp
  | step c f hseq hc hf ih =>
    simp only [List.map_cons, List.nodup_cons]
    refine ⟨?_, ih⟩
    intro hmem
    rcases List.mem_map.mp hmem with ⟨d, hd, hds⟩
    exact hf d hd hds.symm

/-- The oldest context of a spawn sequence (stored last) is the root. -/
theorem spawnSeq_last {r : Context} {cs : List Context} (h : SpawnSeq r cs) :
    cs.getLast? = some r := by
  induction h with
  | root => rfl
  | step c f hseq hc hf ih =>
    rename_i cs'
    cases cs' with
    | nil => simp at ih
    | cons y ys =>
      rw [List.getLast?_cons_cons]
      exact ih

/-- Every non-root context in a spawn sequence points, via `parent_id`, to
the `span_id` of a context derived strictly earlier (stored strictly later
in the newest-first list). -/
theorem spawnSeq_parent {r : Context} {cs : List Context} (h : SpawnSeq r cs) :
    ∀ i : Fin cs.length, i.val + 1 < cs.length →
      ∃ j : Fin cs.length, i.val < j.val ∧
        (cs.get i).parent_id = some ((cs.get j).span_id) := by
  induction h with
  | root =>
    intro i hi
    simp only [List.length_singleton] at hi
    omega
  | step c f hseq hc hf ih =>
    intro i hi
    rcases i with ⟨iv, hiv⟩
    cases iv with
    | zero =>
      obtain ⟨k, hk⟩ := List.mem_iff_get.mp hc
      refine ⟨⟨k.val + 1, by simp [Nat.succ_lt_succ k.isLt]⟩, by simp, ?_⟩
      show (Context.spawn c f).parent_id = _
      simp only [Context.spawn]
      congr 1
      exact congrArg Context.span_id hk.symm
    | succ iv' =>
      simp only [List.length_cons] at hi
      have hiv' : iv' + 1 < _ := Nat.lt_of_succ_lt_succ hi
      obtain ⟨j, hj1, hj2⟩ := ih ⟨iv', Nat.lt_of_succ_lt_succ hiv⟩ hiv'
      exact ⟨⟨j.val + 1, Nat.succ_lt_succ j.isLt⟩, Nat.succ_lt_succ hj1, hj2⟩

/-- Claim C7 (confirmed).  Span derivation and tree invariant:
`Context.spawn` returns a context with the same `trace_id`, the fresh
`span_id`, and `parent_id` equal to the spawning context's `span_id`; two
`spawn()` calls on the same context with distinct fresh ids yield distinct
`span_id`s with identical `trace_id`s and identical `parent_id`s; and for
any sequence of `spawn()` calls starting from a root context (`SpawnSeq`,
newest context first, with the uuid freshness assumption), all derived
contexts share the root's `trace_id` and the `(span_id, parent_id)` pairs
form a tree: span ids are pairwise distinct, the last context is the root,
and every non-root context's `parent_id` is the `span_id` of a context
derived strictly earlier. -/
theorem C7_span_tree (c : Context) (f f1 f2 : Nat) (r : Context)
    (cs : List Context) (hne : f1 ≠ f2) (hseq : SpawnSeq r cs) :
    ((c.spawn f).trace_id = c.trace_id ∧ (c.spawn f).span_id = f
      ∧ (c.spawn f).parent_id = some c.span_id)
    ∧ ((c.spawn f1).span_id ≠ (c.spawn f2).span_id
      ∧ (c.spawn f1).trace_id = (c.spawn f2).trace_id
      ∧ (c.spawn f1).parent_id = (c.spawn f2).parent_id)
    ∧ ((∀ d ∈ cs, d.trace_id = r.trace_id)
      ∧ (cs.map Context.span_id).Nodup
      ∧ cs.getLast? = some r
      ∧ ∀ i : Fin cs.length, i.val + 1 < cs.length →
          ∃ j : Fin cs.length, i.val < j.val ∧
            (cs.get i).parent_id = some ((cs.get j).span_id)) :=
  ⟨⟨rfl, rfl, rfl⟩, ⟨hne, rfl, rfl⟩,
    spawnSeq_trace hseq, spawnSeq_nodup hseq, spawnSeq_last hseq,
    spawnSeq_parent hseq⟩

/-- Witness for C7 with the root `⟨0, 0, none⟩` and the two-element spawn
sequence obtained by spawning once with fresh id `1`. -/
theorem C7_span_tree_witness :
    ((Context.spawn ⟨0, 0, none⟩ 5).trace_id = Context.trace_id ⟨0, 0, none⟩
      ∧ (Context.spawn ⟨0, 0, none⟩ 5).span_id = 5
      ∧ (Context.spawn ⟨0, 0, none⟩ 5).parent_id
          = some (Context.span_id ⟨0, 0, none⟩))
    ∧ ((Context.spawn ⟨0, 0, none⟩ 1).span_id
          ≠ (Context.spawn ⟨0, 0, none⟩ 2).span_id
      ∧ (Context.spawn ⟨0, 0, none⟩ 1).trace_id
          = (Context.spawn ⟨0, 0, none⟩ 2).trace_id
      ∧ (Context.spawn ⟨0, 0, none⟩ 1).parent_id
          = (Context.spawn ⟨0, 0, none⟩ 2).parent_id)
    ∧ ((∀ d ∈ [Context.spawn ⟨0, 0, none⟩ 1, (⟨0, 0, none⟩ : Context)],
          d.trace_id = Context.trace_id ⟨0, 0, none⟩)
      ∧ (([Context.spawn ⟨0, 0, none⟩ 1,
            (⟨0, 0, none⟩ : Context)]).map Context.span_id).Nodup
      ∧ ([Context.spawn ⟨0, 0, none⟩ 1,
            (⟨0, 0, none⟩ : Context)]).getLast? = some ⟨0, 0, none⟩
      ∧ ∀ i : Fin ([Context.spawn ⟨0, 0, none⟩ 1,
            (⟨0, 0, none⟩ : Context)]).length,
          i.val + 1 < ([Context.spawn ⟨0, 0, none⟩ 1,
            (⟨0, 0, none⟩ : Context)]).length →
          ∃ j : Fin ([Context.spawn ⟨0, 0, none⟩ 1,
            (⟨0, 0, none⟩ : Context)]).length,
            i.val < j.val ∧
            (([Context.spawn ⟨0, 0, none⟩ 1,
              (⟨0, 0, none⟩ : Context)]).get i).parent_id
              = some ((([Context.spawn ⟨0, 0, none⟩ 1,
                (⟨0, 0, none⟩ : Context)]).get j).span_id)) :=
  C7_span_tree ⟨0, 0, none⟩ 5 1 2 ⟨0, 0, none⟩
    [Context.spawn ⟨0, 0, none⟩ 1, ⟨0, 0, none⟩] (by decide)
    (SpawnSeq.step _ 1 (SpawnSeq.root _) (by simp) (by decide))

/-- Unfolding lemmas for the C8 predicates on each event constructor. -/
@[simp] theorem runningDeltaPayload_start {α : Type} (c : Option Context)
    (d a : String) :
    runningDeltaPayload (α := α) (Event.taskStart c d a) = none := rfl

/-- Unfolding lemma: a stream announcement has no delta payload. -/
@[simp] theorem runningDeltaPayload_stream {α : Type} (c : Option Context)
    (b : Bool) :
    runningDeltaPayload (α := α) (Event.taskOutputStream c b) = none := rfl

/-- Unfolding lemma: a non-stopped delta's payload. -/
@[simp] theorem runningDeltaPayload_delta {α : Type} (c : Option Context)
    (d : α) :
    runningDeltaPayload (Event.taskOutputStreamDelta c d false) = some d := rfl

/-- Unfolding lemma: the stopped delta has no running payload. -/
@[simp] theorem runningDeltaPayload_stopped {α : Type} (c : Option Context)
    (d : α) :
    runningDeltaPayload (Event.taskOutputStreamDelta c d true) = none := rfl

/-- Unfolding lemma: a delta is not a stream announcement. -/
@[simp] theorem isStreamEvent_delta {α : Type} (c : Option Context) (d : α)
    (st : Bool) :
    isStreamEvent (Event.taskOutputStreamDelta c d st) = false := rfl

/-- Claim C8 (confirmed).  Producer-side event obligations for wrapped LLM
calls.  `prod_run` sends a task-start event, then awaits the run, then sends
exactly one `TaskOutput` with `is_result=true` (stamped by `event_send` on a
fresh child span of the handle's span).  `prod_run_stream` sends the
task-start event and then exactly one `TaskOutputStream` with
`is_result=true` on a fresh child span of the handle's span, before
consuming any stream chunk; it sends one `TaskOutputStreamDelta` per text
chunk, in order, every delta parented on that stream span; and the last
event sent is the final `TaskOutputStreamDelta` with `stopped=true`, after
the stream ends. -/
theorem C8_producer_obligations {α : Type} (parent : Context)
    (fresh_out fstream : Nat) (fdelta : Nat → Nat) (output : α)
    (chunks : List String) :
    prod_run parent fresh_out output
      = [ProdAction.send (Event.taskStart (some parent) "run_agent" "\x7b\x7d"),
         ProdAction.awaitRun,
         ProdAction.send (Event.taskOutput (some (parent.spawn fresh_out)) true output)]
    ∧ (sentEvents (prod_run parent fresh_out output)).countP isResultOutput = 1
    ∧ (prod_run_stream parent fstream fdelta chunks).take 2
        = [ProdAction.send (Event.taskStart (some parent) "run_agent_stream" "\x7b\x7d"),
           ProdAction.send (Event.taskOutputStream (some (parent.spawn fstream)) true)]
    ∧ (parent.spawn fstream).parent_id = some parent.span_id
    ∧ (sentEvents (prod_run_stream parent fstream fdelta chunks)).countP isStreamEvent = 1
    ∧ (sentEvents (prod_run_stream parent fstream fdelta chunks)).filterMap
        runningDeltaPayload = chunks
    ∧ (∀ e ∈ sentEvents (prod_run_stream parent fstream fdelta chunks),
         isDeltaEvent e = true →
         ∃ cx : Context, e.ctx = some cx
           ∧ cx.parent_id = some ((parent.spawn fstream).span_id))
    ∧ (sentEvents (prod_run_stream parent fstream fdelta chunks)).getLast?
        = some (Event.taskOutputStreamDelta
            (some ((parent.spawn fstream).spawn (fdelta chunks.length))) "" true) := by
  have hsent : sentEvents (prod_run_stream parent fstream fdelta chunks)
      = Event.taskStart (some parent) "run_agent_stream" "\x7b\x7d"
        :: Event.taskOutputStream (some (parent.spawn fstream)) true
        :: ((List.enumFrom 0 chunks).map
             (fun q => Event.taskOutputStreamDelta
               (some ((parent.spawn fstream).spawn (fdelta q.1))) q.2 false)
            ++ [Event.taskOutputStreamDelta
                 (some ((parent.spawn fstream).spawn (fdelta chunks.length))) "" true]) := by
    simp only [prod_run_stream, sentEvents_send_cons,
      sentEvents_streamDeltas parent (parent.spawn fstream) fdelta chunks 0]
    simp [event_send, Event.ctx, Event.setCtx]
  refine ⟨rfl, rfl, rfl, rfl, ?_, ?_, ?_, ?_⟩
  · rw [hsent]
    simp only [List.countP_cons, List.countP_append]
    have h0 : ((List.enumFrom 0 chunks).map
        (fun q : Nat × String => Event.taskOutputStreamDelta
          (some ((parent.spawn fstream).spawn (fdelta q.1))) q.2 false)).countP
        isStreamEvent = 0 := by
      rw [List.countP_eq_zero]
      intro e he
      rcases List.mem_map.mp he with ⟨q, _, rfl⟩
      simp
    rw [h0]
    simp [isStreamEvent]
  · rw [hsent]
    rw [show List.filterMap runningDeltaPayload
        (Event.taskStart (some parent) "run_agent_stream" "\x7b\x7d"
          :: Event.taskOutputStream (some (parent.spawn fstream)) true
          :: ((List.enumFrom 0 chunks).map
               (fun q => Event.taskOutputStreamDelta
                 (some ((parent.spawn fstream).spawn (fdelta q.1))) q.2 false)
              ++ [Event.taskOutputStreamDelta
                   (some ((parent.spawn fstream).spawn (fdelta chunks.length))) "" true]))
      = List.filterMap runningDeltaPayload
          ((List.enumFrom 0 chunks).map
             (fun q => Event.taskOutputStreamDelta
               (some ((parent.spawn fstream).spawn (fdelta q.1))) q.2 false)
            ++ [Event.taskOutputStreamDelta
                 (some ((parent.spawn fstream).spawn (fdelta chunks.length))) "" true])
      from by simp]
    rw [List.filterMap_append, List.filterMap_map]
    have hcomp : (runningDeltaPayload ∘ fun q : Nat × String =>
        Event.taskOutputStreamDelta
          (some ((parent.spawn fstream).spawn (fdelta q.1))) q.2 false)
        = some ∘ Prod.snd := rfl
    rw [hcomp, List.filterMap_eq_map, List.enumFrom_map_snd]
    simp
  · rw [hsent]
    intro e he hdelta
    simp only [List.mem_cons] at he
    rcases he with rfl | he
    · simp [isDeltaEvent] at hdelta
    rcases he with rfl | he
    · simp [isDeltaEvent] at hdelta
    rcases List.mem_append.mp he with he | he
    · rcases List.mem_map.mp he with ⟨q, _, rfl⟩
      exact ⟨_, rfl, rfl⟩
    · simp only [List.mem_singleton] at he
      subst he
      exact ⟨_, rfl, rfl⟩
  · rw [hsent]
    rw [← List.cons_append, ← List.cons_append, List.getLast?_concat]

/-- Witness for C8: for the concrete producer with chunks `["a", "b"]`, the
first delta (sent on span `100`, a child of the stream span `5`) satisfies
the delta-parenting obligation. -/
theorem C8_producer_obligations_witness :
    ∃ cx : Context,
      (Event.taskOutputStreamDelta (some ⟨7, 100, some 5⟩) "a" false).ctx = some cx
      ∧ cx.parent_id = some ((Context.spawn ⟨7, 0, none⟩ 5).span_id) :=
  (C8_producer_obligations ⟨7, 0, none⟩ 3 5 (fun i => 100 + i) (42 : Nat)
      ["a", "b"]).2.2.2.2.2.2.1
    (Event.taskOutputStreamDelta (some ⟨7, 100, some 5⟩) "a" false)
    (by decide) rfl

/-! ### Claim C9: fan-out partial-failure aggregation -/

/-- Unfolding lemma: aggregating no branches. -/
@[simp] theorem normal_query_aggregate_nil {ε β : Type} :
    normal_query_aggregate ([] : List (Except ε β)) = [] := rfl

/-- Unfolding lemma: a successful branch survives aggregation. -/
@[simp] theorem normal_query_aggregate_ok_cons {ε β : Type} (a : β)
    (bs : List (Except ε β)) :
    normal_query_aggregate (Except.ok a :: bs) = a :: normal_query_aggregate bs := rfl

/-- Unfolding lemma: a raised branch is filtered out. -/
@[simp] theorem normal_query_aggregate_error_cons {ε β : Type} (exc : ε)
    (bs : List (Except ε β)) :
    normal_query_aggregate (Except.error exc :: bs) = normal_query_aggregate bs := rfl

/-- The aggregated answers are exactly the successful branches, in input
order: mapping them back under `Except.ok` yields a sublist of the input. -/
theorem normal_query_aggregate_sublist {ε β : Type} :
    ∀ branches : List (Except ε β),
      List.Sublist ((normal_query_aggregate branches).map Except.ok) branches := by
  intro branches
  induction branches with
  | nil => simp
  | cons b bs ih =>
    cases b with
    | ok a =>
      rw [normal_query_aggregate_ok_cons, List.map_cons]
      exact List.Sublist.cons₂ _ ih
    | error exc =>
      rw [normal_query_aggregate_error_cons]
      exact List.Sublist.cons _ ih

/-- The aggregation keeps one answer per successful branch. -/
theorem normal_query_aggregate_length {ε β : Type} :
    ∀ branches : List (Except ε β),
      (normal_query_aggregate branches).length = branches.countP isOkBranch := by
  intro branches
  induction branches with
  | nil => simp
  | cons b bs ih =>
    cases b with
    | ok a => simp [List.countP_cons, isOkBranch, ih]
    | error exc => simp [List.countP_cons, isOkBranch, ih]

/-- The enumerate-and-prefix comprehension of `summary_qa` also keeps one
answer per successful branch. -/
theorem summary_qa_aggregate_length {ε : Type} (published : Nat → Option String) :
    ∀ (branches : List (Except ε String)),
      (summary_qa_aggregate published branches).length
        = branches.countP isOkBranch := by
  have key : ∀ (branches : List (Except ε String)) (n : Nat),
      ((List.enumFrom n branches).filterMap fun p =>
        match p.2 with
        | Except.error _ => none
        | Except.ok x =>
          some ((match published p.1 with
            | some t => "published at " ++ t ++ "\n\n"
            | none => "") ++ x)).length = branches.countP isOkBranch := by
    intro branches
    induction branches with
    | nil => intro n; simp
    | cons b bs ih =>
      intro n
      cases b with
      | ok a => simp [List.enumFrom_cons, List.filterMap_cons, List.countP_cons,
          isOkBranch, ih (n + 1)]
      | error exc => simp [List.enumFrom_cons, List.filterMap_cons,
          List.countP_cons, isOkBranch, ih (n + 1)]
  intro branches
  exact key branches 0

/-- When every branch raised, the aggregate is empty. -/
theorem normal_query_aggregate_all_failed {ε β : Type} :
    ∀ branches : List (Except ε β),
      (∀ b ∈ branches, isOkBranch b = false) →
      normal_query_aggregate branches = [] := by
  intro branches
  induction branches with
  | nil => intro _; rfl
  | cons b bs ih =>
    intro h
    cases b with
    | ok a => simpa [isOkBranch] using h (Except.ok a) (by simp)
    | error exc =>
      rw [normal_query_aggregate_error_cons]
      exact ih fun x hx => h x (List.mem_cons_of_mem _ hx)

/-- Counterexample to claim C9's all-failed clause.  When all 5 concurrent
branches raise, `VillVEngine.normal_query` does not propagate an error from
the aggregation step: the filtered list is empty, `len(answers) == 1` is
false, and the code proceeds to call `context_qa` with an empty answer list
(and likewise `summary_qa` builds its prompt from an empty aggregate);
nothing in the aggregation raises. -/
theorem C9_counterexample :
    normal_query_fanout
        [(Except.error "e1" : Except String Nat), Except.error "e2",
         Except.error "e3", Except.error "e4", Except.error "e5"]
      = VillvCont.contextQA []
    ∧ summary_qa_aggregate (fun _ => none)
        [(Except.error "e1" : Except String String), Except.error "e2",
         Except.error "e3", Except.error "e4", Except.error "e5"] = [] :=
  ⟨rfl, rfl⟩

/-- Claim C9, amended.  When N per-source QA (or per-subquery) calls run
concurrently and some raise, the aggregation step filters the raised
branches out and returns exactly the successful outputs in input order
(mapping the aggregate back under `Except.ok` is a sublist of the input,
and its length is the number of successful branches, both for
`normal_query` and for `summary_qa`'s enumerate-and-prefix comprehension);
an all-failed fan-out, however, does not propagate an error from the
aggregation step: the aggregate is empty and `normal_query` proceeds to
`context_qa` with the empty answer list. -/
theorem C9_fanout_aggregation {ε β : Type} (branches failed : List (Except ε β))
    (published : Nat → Option String) (sbranches : List (Except ε String))
    (hfail : ∀ b ∈ failed, isOkBranch b = false) :
    List.Sublist ((normal_query_aggregate branches).map Except.ok) branches
    ∧ (normal_query_aggregate branches).length = branches.countP isOkBranch
    ∧ (summary_qa_aggregate published sbranches).length
        = sbranches.countP isOkBranch
    ∧ normal_query_aggregate failed = []
    ∧ normal_query_fanout failed = VillvCont.contextQA [] := by
  have hempty := normal_query_aggregate_all_failed failed hfail
  refine ⟨normal_query_aggregate_sublist branches,
    normal_query_aggregate_length branches,
    summary_qa_aggregate_length published sbranches, hempty, ?_⟩
  unfold normal_query_fanout
  rw [hempty]

/-- Witness for C9's amended statement: 2 of 5 branches raise; the aggregate
is exactly the 3 successful outputs in input order, and an all-failed
fan-out of 5 branches yields the empty aggregate handed to `context_qa`. -/
theorem C9_fanout_aggregation_witness :
    (List.Sublist
        ((normal_query_aggregate
          [(Except.ok 1 : Except String Nat), Except.error "a", Except.ok 2,
           Except.error "b", Except.ok 3]).map Except.ok)
        [(Except.ok 1 : Except String Nat), Except.error "a", Except.ok 2,
         Except.error "b", Except.ok 3]
    ∧ (normal_query_aggregate
        [(Except.ok 1 : Except String Nat), Except.error "a", Except.ok 2,
         Except.error "b", Except.ok 3]).length
        = List.countP isOkBranch
            [(Except.ok 1 : Except String Nat), Except.error "a", Except.ok 2,
             Except.error "b", Except.ok 3]
    ∧ (summary_qa_aggregate (fun _ => none)
        [(Except.ok "x" : Except String String), Except.error "a",
         Except.ok "y"]).length
        = List.countP isOkBranch
            [(Except.ok "x" : Except String String), Except.error "a",
             Except.ok "y"]
    ∧ normal_query_aggregate
        [(Except.error "e1" : Except String Nat), Except.error "e2",
         Except.error "e3", Except.error "e4", Except.error "e5"] = []
    ∧ normal_query_fanout
        [(Except.error "e1" : Except String Nat), Except.error "e2",
         Except.error "e3", Except.error "e4", Except.error "e5"]
        = VillvCont.contextQA [])
    ∧ normal_query_aggregate
        [(Except.ok 1 : Except String Nat), Except.error "a", Except.ok 2,
         Except.error "b", Except.ok 3] = [1, 2, 3] :=
  ⟨C9_fanout_aggregation
      [(Except.ok 1 : Except String Nat), Except.error "a", Except.ok 2,
       Except.error "b", Except.ok 3]
      [(Except.error "e1" : Except String Nat), Except.error "e2",
       Except.error "e3", Except.error "e4", Except.error "e5"]
      (fun _ => none)
      [(Except.ok "x" : Except String String), Except.error "a", Except.ok "y"]
      (by decide), rfl⟩

/-- Claim C10 (confirmed).  Implicit channel invariant: every event placed
on the shared channel through `EventDeps.event_send` has a non-null `ctx` —
a fresh child span of the handle's current span is stamped exactly when the
caller left `ctx` unset, and a caller-provided `ctx` is forwarded
unchanged — so the consumption driver's `ctx.parent_id` comparisons in
`EventDeps.run` never operate on a null context (one loop iteration on a
sent event never takes the `AttributeError` path). -/
theorem C10_event_send_ctx {α : Type} (parent : Context) (fresh : Nat)
    (e : Event α) (S : Nat) (ss : Option Context) :
    ((event_send parent fresh e).ctx).isSome = true
    ∧ (e.ctx = none →
        (event_send parent fresh e).ctx = some (parent.spawn fresh))
    ∧ (∀ c : Context, e.ctx = some c → event_send parent fresh e = e)
    ∧ step S ss (event_send parent fresh e) ≠ none := by
  refine ⟨?_, ?_, ?_, ?_⟩
  · cases e <;> rfl
  · intro h
    cases e <;> simp [Event.ctx] at h <;>
      simp [event_send, Event.ctx, Event.setCtx, h]
  · intro c hc
    cases e <;> simp [Event.ctx] at hc <;>
      simp [event_send, Event.ctx, Event.setCtx, hc]
  · have h1 : ((event_send parent fresh e).ctx).isSome = true := by
      cases e <;> rfl
    obtain ⟨cx, hcx⟩ := Option.isSome_iff_exists.mp h1
    intro hnone
    have h2 := step_isSome hcx S ss
    rw [hnone] at h2
    simp at h2

/-- Witness for C10: an output event sent without a context is stamped with
the child span of the handle; one with a context passes through unchanged;
the driver's iteration on the stamped event does not crash. -/
theorem C10_event_send_ctx_witness :
    ((event_send ⟨7, 0, none⟩ 3 (Event.taskOutput none true (5 : Nat))).ctx).isSome = true
    ∧ (event_send ⟨7, 0, none⟩ 3 (Event.taskOutput none true (5 : Nat))).ctx
        = some (Context.spawn ⟨7, 0, none⟩ 3)
    ∧ event_send ⟨7, 0, none⟩ 3
        (Event.taskOutput (some ⟨7, 9, some 0⟩) true (5 : Nat))
        = Event.taskOutput (some ⟨7, 9, some 0⟩) true 5
    ∧ step 0 none (event_send ⟨7, 0, none⟩ 3 (Event.taskOutput none true (5 : Nat)))
        ≠ none :=
  ⟨(C10_event_send_ctx ⟨7, 0, none⟩ 3 (Event.taskOutput none true (5 : Nat)) 0 none).1,
   (C10_event_send_ctx ⟨7, 0, none⟩ 3 (Event.taskOutput none true (5 : Nat)) 0 none).2.1 rfl,
   (C10_event_send_ctx ⟨7, 0, none⟩ 3
      (Event.taskOutput (some ⟨7, 9, some 0⟩) true (5 : Nat)) 0 none).2.2.1
      ⟨7, 9, some 0⟩ rfl,
   (C10_event_send_ctx ⟨7, 0, none⟩ 3 (Event.taskOutput none true (5 : Nat)) 0 none).2.2.2⟩

end Simplicity
